import Mathlib

/-!
Verification of the pytunnel relay server (`server.py`, with the client relay
in `client.py`) against its natural-language specification.

The Python dictionaries (`tunnels`, `subdomains`, `pending_responses`) are
modelled as association lists with Python `dict` semantics: assignment
overwrites an existing key in place, `pop`/`del` removes the key, and a
`defaultdict(dict)` read materialises an empty inner map.  `asyncio` futures
are modelled by an explicit store mapping a future identifier to its state;
`Future.set_result` on an already-resolved future raises `InvalidStateError`
(in `server.py` that exception is caught and logged), which the model reflects
by leaving the store unchanged on that path.

Under `asyncio`, coroutine code interleaves only at `await` points, so any
stretch of handler code with no `await` runs as one atomic step with respect
to every other coroutine.  Each such stretch of `server.py` is embedded as a
single Lean function on the server state.
-/

namespace PyTunnel

/-- Lookup in an association list (Python `d[k]` / `k in d`). -/
def alookup {κ α : Type} [DecidableEq κ] (k : κ) : List (κ × α) → Option α
  | [] => none
  | (k', v) :: t => if k' = k then some v else alookup k t

/-- Python `d[k] = v`: overwrite in place if the key exists, else append. -/
def ainsert {κ α : Type} [DecidableEq κ] (k : κ) (v : α) :
    List (κ × α) → List (κ × α)
  | [] => [(k, v)]
  | (k', v') :: t => if k' = k then (k, v) :: t else (k', v') :: ainsert k v t

/-- Python `d.pop(k, None)` / guarded `del d[k]`: drop the key if present. -/
def aremove {κ α : Type} [DecidableEq κ] (k : κ) : List (κ × α) → List (κ × α)
  | [] => []
  | (k', v') :: t => if k' = k then aremove k t else (k', v') :: aremove k t

/-- Keys of an association list (Python `d.keys()`). -/
def akeys {κ α : Type} (l : List (κ × α)) : List κ :=
  l.map Prod.fst

/-- The fields of an inbound `http-response` frame that `server.py` reads
(`data.get('request_id')`, and `.get('status'/'headers'/'body')` when the
frame is turned into an HTTP response).  A JSON object read with
`data.get(field)` yields `None` when the field is absent, so every field is
an `Option`; header dicts are association lists of strings. -/
structure RespFrame where
  request_id : Option String
  status : Option Nat
  headers : Option (List (String × String))
  body : Option String
deriving DecidableEq

/-- State of one `asyncio.Future`.  `server.py` resolves futures only via
`set_result(data)`, recorded as `resolved` with the delivered frame;
`failed` is the state the spec demands for cancelled callers (the code never
produces it). -/
inductive FutState where
  | pending : FutState
  | resolved : RespFrame → FutState
  | failed : FutState
deriving DecidableEq

/-- The global mutable state of `server.py`: the `tunnels` and `subdomains`
dicts (subdomain ↦ websocket handle), the `pending_responses`
`defaultdict(dict)` (subdomain ↦ request_id ↦ future id), and the store of
future objects those ids denote. -/
structure ServerState where
  tunnels : List (String × Nat)
  subdomains : List (String × Nat)
  pending : List (String × List (String × Nat))
  futures : List (Nat × FutState)
deriving DecidableEq

/-- The pending entry registered for `(subdomain, request_id)`, if any:
`pending_responses[sd][rid]` read without the defaultdict side effect. -/
def lookupPending (p : List (String × List (String × Nat))) (sd rid : String) :
    Option Nat :=
  match alookup sd p with
  | none => none
  | some m => alookup rid m

/-! ### Subdomain reservation (`websocket_handler`, server.py lines 55-64)

`subdomain = generate_subdomain()` followed by
`while subdomain in subdomains: subdomain = generate_subdomain()` and the two
dict assignments contains no `await`, so the whole generate/check/insert
sequence is one atomic step of the event loop.  The stream of raw candidates
the generator would produce is passed in as a list; the unbounded `while`
loop is total on it because each iteration consumes one candidate. -/

/-- The retry loop: first candidate not already a key of `subdomains`. -/
def pickSubdomain (registry : List String) : List String → Option String
  | [] => none
  | c :: rest => if c ∈ registry then pickSubdomain registry rest else some c

/-- Atomic reservation step: pick a fresh subdomain and enter it into both
`tunnels` and `subdomains` (server.py lines 58-64). -/
def reserveSubdomain (st : ServerState) (ws : Nat) (cands : List String) :
    Option (String × ServerState) :=
  match pickSubdomain (akeys st.subdomains) cands with
  | none => none
  | some sd =>
      some (sd, { st with
        tunnels := ainsert sd ws st.tunnels,
        subdomains := ainsert sd ws st.subdomains })

/-! ### Wire frames and HTTP values

An `http-response` frame is a JSON object; `data.get(field)` yields `None`
when the field is absent, so every field the server reads is an `Option`
(see `RespFrame` above). -/

/-- The `http-request` frame built in `http_handler` (server.py lines
130-137). -/
structure ReqFrame where
  type : String
  request_id : String
  method : String
  path : String
  headers : List (String × String)
  body : String
deriving DecidableEq

/-- An inbound public HTTP request as `http_handler` sees it. -/
structure HttpRequest where
  method : String
  path : String
  host : String
  headers : List (String × String)
  body : String
deriving DecidableEq

/-- The HTTP response handed back to the public caller
(`web.Response(status=..., text=..., headers=...)`). -/
structure HttpResponse where
  status : Nat
  body : String
  headers : List (String × String)
deriving DecidableEq

/-- Python truthiness of `data.get('request_id')`: `None` and the empty
string are falsy (server.py line 81 short-circuits on `request_id and ...`). -/
def truthy : Option String → Bool
  | none => false
  | some s => s ≠ ""

/-- Translation of a resolved `http-response` frame into the public HTTP
response (server.py lines 145-149): `response_data.get('status', 200)`,
`response_data.get('body', '')`, `response_data.get('headers', {})`. -/
def translateResponse (d : RespFrame) : HttpResponse :=
  { status := d.status.getD 200
    body := d.body.getD ""
    headers := d.headers.getD [] }

/-! ### The control-channel read loop (`websocket_handler`, lines 78-85)

On an `http-response` frame the handler reads `request_id`; if it is truthy
it evaluates `request_id in pending_responses[subdomain]` — and because
`pending_responses` is a `defaultdict(dict)`, that subscript materialises an
empty inner dict when `subdomain` has none.  On a hit it calls
`set_result(data)` on the stored future; `set_result` on an already-resolved
future raises `InvalidStateError`, which the surrounding `except` logs,
leaving the future's result intact. -/

/-- `pending_responses[sd]` on a `defaultdict(dict)`: the inner map, plus the
possibly-extended outer map. -/
def defaultGet (p : List (String × List (String × Nat))) (sd : String) :
    List (String × Nat) × List (String × List (String × Nat)) :=
  match alookup sd p with
  | some m => (m, p)
  | none => ([], ainsert sd [] p)

/-- One `http-response` frame processed by the read loop.  Returns the new
state and whether a pending future was actually resolved by this frame. -/
def handleHttpResponse (st : ServerState) (sd : String) (d : RespFrame) :
    ServerState × Bool :=
  if truthy d.request_id then
    match d.request_id with
    | none => (st, false)
    | some rid =>
        let inner := (defaultGet st.pending sd).1
        let p' := (defaultGet st.pending sd).2
        match alookup rid inner with
        | none => ({ st with pending := p' }, false)
        | some fid =>
            match alookup fid st.futures with
            | some FutState.pending =>
                (⟨st.tunnels, st.subdomains, p',
                   ainsert fid (FutState.resolved d) st.futures⟩, true)
            | _ => ({ st with pending := p' }, false)
  else
    (st, false)

/-! ### Session teardown (`websocket_handler` finally block, lines 93-98)

`tunnels.pop(subdomain, None)`, `subdomains.pop(subdomain, None)`, and a
guarded `del pending_responses[subdomain]`.  No future stored for the
session is touched: the futures field passes through unchanged. -/

/-- The teardown / unregister step run when a control channel closes. -/
def websocketTeardown (st : ServerState) (sd : String) : ServerState :=
  { st with
    tunnels := aremove sd st.tunnels,
    subdomains := aremove sd st.subdomains,
    pending := aremove sd st.pending }

/-! ### Public ingress (`http_handler`, lines 100-160) -/

/-- Subdomain extraction (server.py line 104):
`host.split('.')[0] if '.' in host else 'default'`.  The first element of
`host.split('.')` is exactly the run of characters before the first `'.'`,
taken here over the string's character list. -/
def subdomainOf (host : String) : String :=
  if '.' ∈ host.toList then
    String.mk (host.toList.takeWhile (fun c => c ≠ '.'))
  else "default"

/-- `request_id = str(random.randint(1000, 9999))` (line 123): the id is the
decimal print of one draw from the 4-digit space. -/
def generateRequestId (draw : Nat) : String :=
  toString draw

/-- Creation of a pending entry (lines 126-127): a fresh future is created
and `pending_responses[subdomain][request_id] = response_future` stores it —
a plain dict assignment that overwrites any entry already present under the
same request id. -/
def createPending (st : ServerState) (sd rid : String) (fid : Nat) :
    ServerState :=
  let inner := (defaultGet st.pending sd).1
  { st with
    pending := ainsert sd (ainsert rid fid inner) st.pending,
    futures := ainsert fid FutState.pending st.futures }

/-- The `finally` cleanup (lines 153-156): delete
`pending_responses[subdomain][request_id]` if both keys are present. -/
def cleanupPending (st : ServerState) (sd rid : String) : ServerState :=
  match alookup sd st.pending with
  | none => st
  | some m =>
      if (alookup rid m).isSome then
        { st with pending := ainsert sd (aremove rid m) st.pending }
      else st

/-- The hard-coded deadline of `asyncio.wait_for(response_future,
timeout=30.0)` (line 143); the public caller has no way to pick another. -/
def requestTimeoutSeconds : Nat := 30

/-- How the await in `http_handler` ends: either the future was resolved
with a frame, or the 30-second deadline fired. -/
inductive WaitOutcome where
  | reply : RespFrame → WaitOutcome
  | timeout : WaitOutcome
deriving DecidableEq

/-- The whole `http_handler`, with the nondeterminism passed in explicitly:
`ridDraw` is the `random.randint(1000, 9999)` draw, `fid` the identity of the
freshly created future, and `out` how the await ends.  Returns the public
response, the new state, and the frame forwarded to the tunnel (if any). -/
def httpHandler (st : ServerState) (req : HttpRequest) (ridDraw : Nat)
    (fid : Nat) (out : WaitOutcome) :
    HttpResponse × ServerState × Option ReqFrame :=
  let sd := subdomainOf req.host
  match alookup sd st.tunnels with
  | none =>
      ({ status := 404
         body := "Tunnel " ++ sd ++ " not found. Available tunnels: "
                   ++ toString (akeys st.tunnels)
         headers := [] }, st, none)
  | some _ =>
      let rid := generateRequestId ridDraw
      let st1 := createPending st sd rid fid
      let frame : ReqFrame :=
        { type := "http-request", request_id := rid, method := req.method
          path := req.path, headers := req.headers, body := req.body }
      match out with
      | WaitOutcome.reply d =>
          (translateResponse d, cleanupPending st1 sd rid, some frame)
      | WaitOutcome.timeout =>
          ({ status := 504, body := "Gateway Timeout", headers := [] },
           cleanupPending st1 sd rid, some frame)

/-! ### Health endpoint and routing (lines 162-164 and 222-235) -/

/-- `health_handler` (lines 162-164): `web.Response(text="OK", status=200)`.
It takes the request and runs with the global state in scope, but reads
neither. -/
def healthHandler (_st : ServerState) (_req : HttpRequest) : HttpResponse :=
  { status := 200, body := "OK", headers := [] }

/-- Which handler the aiohttp router selects. -/
inductive RouteTarget where
  | health : RouteTarget
  | tunnel : RouteTarget
deriving DecidableEq

/-- The route table of `start_server` (lines 222-235): the exact
`GET /health` route is registered before the catch-all `/{path:.*}` routes,
so it wins; everything else falls through to `http_handler`. -/
def routeFor (method : String) (path : String) : RouteTarget :=
  if method = "GET" ∧ path = "/health" then RouteTarget.health
  else RouteTarget.tunnel

/-! ### The client relay (`client.py`, `handle_local_request`, lines 25-57)

The relay executes the forwarded call against the local upstream and builds
the `http-response` frame from the upstream's result, tagging it with the
request frame's id and carrying status, headers and body verbatim
(client.py lines 43-49). -/

/-- The Response frame the relay sends back for a local result. -/
def relayResponseFrame (frame : ReqFrame) (status : Nat)
    (headers : List (String × String)) (body : String) : RespFrame :=
  ⟨some frame.request_id, some status, some headers, some body⟩

/-! ### Concrete states, requests and frames used to instantiate claims -/

/-- The server's initial state: all dicts empty. -/
def scenarioEStart : ServerState := ⟨[], [], [], []⟩

/-- One session registered under `abcd1234` (websocket handle 0). -/
def scenarioEMid : ServerState :=
  ⟨[("abcd1234", 0)], [("abcd1234", 0)], [], []⟩

/-- Two sessions registered, `abcd1234` and `efgh5678`. -/
def scenarioEEnd : ServerState :=
  ⟨[("abcd1234", 0), ("efgh5678", 1)], [("abcd1234", 0), ("efgh5678", 1)],
   [], []⟩

/-- A public `GET /foo` aimed at host `abcd1234.example.com`. -/
def reqFoo : HttpRequest :=
  ⟨"GET", "/foo", "abcd1234.example.com", [], ""⟩

/-- A public `GET /foo` aimed at the unregistered host
`zzzz0000.example.com`. -/
def reqZzzz : HttpRequest :=
  ⟨"GET", "/foo", "zzzz0000.example.com", [], ""⟩

/-- A `GET /health` probe. -/
def reqHealth : HttpRequest :=
  ⟨"GET", "/health", "localhost", [], ""⟩

/-- Session `abcd1234` with one in-flight request (`request_id` 1234, future
id 1, still pending) at the instant its control channel closes. -/
def closingSessionState : ServerState :=
  ⟨[("abcd1234", 0)], [("abcd1234", 0)], [("abcd1234", [("1234", 1)])],
   [(1, FutState.pending)]⟩

/-- State after one `create_pending` for session `abcd1234` whose
`random.randint(1000, 9999)` draw was 1234 (future id 1). -/
def collisionFirst : ServerState :=
  createPending scenarioEMid "abcd1234" (generateRequestId 1234) 1

/-- State after a second concurrent `create_pending` for the same session
whose draw was again 1234 (future id 2). -/
def collisionSecond : ServerState :=
  createPending collisionFirst "abcd1234" (generateRequestId 1234) 2

/-- The frame the relay answered with first: `{status: 200, body: "ok"}`. -/
def okFrame : RespFrame := ⟨some "1234", some 200, none, some "ok"⟩

/-- A late duplicate completion for the same request id. -/
def lateFrame : RespFrame := ⟨some "1234", some 500, none, some "late"⟩

/-- Session `abcd1234` whose request 1234 (future id 1) has already been
resolved with `okFrame`, the entry not yet cleaned up by the waiter. -/
def resolvedStore : ServerState :=
  ⟨[("abcd1234", 0)], [("abcd1234", 0)], [("abcd1234", [("1234", 1)])],
   [(1, FutState.resolved okFrame)]⟩

/-! ### General facts about the dictionary model -/

theorem pickSubdomain_not_mem {registry : List String} :
    ∀ {cs : List String} {c : String},
      pickSubdomain registry cs = some c → c ∉ registry := by
  intro cs
  induction cs with
  | nil => intro c h; simp [pickSubdomain] at h
  | cons hd tl ih =>
      intro c h
      by_cases hm : hd ∈ registry
      · exact ih (by simpa [pickSubdomain, hm] using h)
      · have hc : hd = c := by simpa [pickSubdomain, hm] using h
        subst hc
        exact hm

theorem alookup_ainsert_self {κ α : Type} [DecidableEq κ] (k : κ) (v : α) :
    ∀ l : List (κ × α), alookup k (ainsert k v l) = some v := by
  intro l
  induction l with
  | nil => simp [ainsert, alookup]
  | cons hd tl ih =>
      by_cases h : hd.1 = k
      · simp [ainsert, alookup, h]
      · simp [ainsert, alookup, h, ih]

theorem mem_akeys_of_alookup {κ α : Type} [DecidableEq κ] {k : κ} {v : α} :
    ∀ {l : List (κ × α)}, alookup k l = some v → k ∈ akeys l := by
  intro l
  induction l with
  | nil => intro h; simp [alookup] at h
  | cons hd tl ih =>
      intro h
      by_cases he : hd.1 = k
      · simp [akeys, he]
      · have := ih (by simpa [alookup, he] using h)
        simpa [akeys] using Or.inr (by simpa [akeys] using this)

theorem alookup_ainsert_ne {κ α : Type} [DecidableEq κ] {k k' : κ} (v : α)
    (h : k' ≠ k) : ∀ l : List (κ × α), alookup k' (ainsert k v l) = alookup k' l := by
  intro l
  induction l with
  | nil => simp [ainsert, alookup, Ne.symm h]
  | cons hd tl ih =>
      by_cases he : hd.1 = k
      · simp [ainsert, alookup, he, Ne.symm h]
      · simp [ainsert, alookup, he, ih]

theorem alookup_aremove_self {κ α : Type} [DecidableEq κ] (k : κ) :
    ∀ l : List (κ × α), alookup k (aremove k l) = none := by
  intro l
  induction l with
  | nil => simp [aremove, alookup]
  | cons hd tl ih =>
      by_cases he : hd.1 = k
      · simpa [aremove, he] using ih
      · simp [aremove, alookup, he, ih]

theorem aremove_of_alookup_none {κ α : Type} [DecidableEq κ] {k : κ} :
    ∀ {l : List (κ × α)}, alookup k l = none → aremove k l = l := by
  intro l
  induction l with
  | nil => intro _; rfl
  | cons hd tl ih =>
      intro h
      by_cases he : hd.1 = k
      · simp [alookup, he] at h
      · simp [alookup, he] at h
        simp [aremove, he, ih h]

theorem aremove_idem {κ α : Type} [DecidableEq κ] (k : κ) (l : List (κ × α)) :
    aremove k (aremove k l) = aremove k l :=
  aremove_of_alookup_none (alookup_aremove_self k l)

theorem lookupPending_defaultGet (p : List (String × List (String × Nat)))
    (sd sd' rid' : String) :
    lookupPending (defaultGet p sd).2 sd' rid' = lookupPending p sd' rid' := by
  unfold defaultGet
  cases h : alookup sd p with
  | some m => simp
  | none =>
      by_cases he : sd' = sd
      · subst he
        simp [lookupPending, h, alookup_ainsert_self, alookup]
      · simp [lookupPending, alookup_ainsert_ne _ he]

theorem lookupPending_cleanup (st : ServerState) (sd rid : String) :
    lookupPending (cleanupPending st sd rid).pending sd rid = none := by
  unfold cleanupPending
  cases h : alookup sd st.pending with
  | none => simp [lookupPending, h]
  | some m =>
      by_cases hs : (alookup rid m).isSome
      · simp [hs, lookupPending, alookup_ainsert_self, alookup_aremove_self]
      · have hn : alookup rid m = none := by
          cases hx : alookup rid m with
          | none => rfl
          | some fid => simp [hx] at hs
        simp [hs, lookupPending, h, hn]

/-- Inversion of a successful reservation: the subdomain came out of the
retry loop, and the new state is the old one with the subdomain entered into
both dicts. -/
theorem reserveSubdomain_inv {st : ServerState} {ws : Nat} {cs : List String}
    {sd : String} {st' : ServerState}
    (h : reserveSubdomain st ws cs = some (sd, st')) :
    pickSubdomain (akeys st.subdomains) cs = some sd ∧
    st' = { st with tunnels := ainsert sd ws st.tunnels,
                    subdomains := ainsert sd ws st.subdomains } := by
  unfold reserveSubdomain at h
  cases hp : pickSubdomain (akeys st.subdomains) cs with
  | none => rw [hp] at h; cases h
  | some c =>
      rw [hp] at h
      simp only [Option.some.injEq, Prod.mk.injEq] at h
      obtain ⟨hc, hs⟩ := h
      subst hc
      exact ⟨rfl, hs.symm⟩

/-! ## The claims -/

/-- C1: two subdomain reservations, run in the order the event loop schedules
them (the generate/check/insert block of `websocket_handler` contains no
`await`, so each runs as one atomic step), always register two distinct
subdomains, even when the two candidate streams overlap; both end up
registered in the `subdomains` dict. -/
theorem websocket_reserve_distinct (st st1 st2 : ServerState) (ws1 ws2 : Nat)
    (cs1 cs2 : List String) (sd1 sd2 : String)
    (h1 : reserveSubdomain st ws1 cs1 = some (sd1, st1))
    (h2 : reserveSubdomain st1 ws2 cs2 = some (sd2, st2)) :
    sd1 ≠ sd2 ∧ alookup sd1 st2.subdomains = some ws1 ∧
      alookup sd2 st2.subdomains = some ws2 := by
  obtain ⟨hp1, hdef1⟩ := reserveSubdomain_inv h1
  obtain ⟨hp2, hdef2⟩ := reserveSubdomain_inv h2
  have hmem1 : sd1 ∈ akeys st1.subdomains := by
    rw [hdef1]
    exact mem_akeys_of_alookup (alookup_ainsert_self sd1 ws1 st.subdomains)
  have hne : sd1 ≠ sd2 := fun he => pickSubdomain_not_mem hp2 (he ▸ hmem1)
  refine ⟨hne, ?_, ?_⟩
  · rw [hdef2]
    show alookup sd1 (ainsert sd2 ws2 st1.subdomains) = some ws1
    rw [alookup_ainsert_ne _ hne]
    rw [hdef1]
    exact alookup_ainsert_self sd1 ws1 st.subdomains
  · rw [hdef2]
    exact alookup_ainsert_self sd2 ws2 st1.subdomains

/-- C1 witness (Scenario E): the generator hands out the raw candidate
`abcd1234` to both connections; the first registers it, the second's retry
loop skips it and registers `efgh5678`. -/
theorem websocket_reserve_distinct_witness :
    "abcd1234" ≠ "efgh5678" ∧
    alookup "abcd1234" scenarioEEnd.subdomains = some 0 ∧
    alookup "efgh5678" scenarioEEnd.subdomains = some 1 :=
  websocket_reserve_distinct scenarioEStart scenarioEMid scenarioEEnd 0 1
    ["abcd1234"] ["abcd1234", "efgh5678"] "abcd1234" "efgh5678"
    (by decide) (by decide)

/-- C5: the await on the response future is hard-wired to a 30-second
deadline; when it fires, the public caller gets the 504 "Gateway Timeout"
response and the `finally` block removes the pending entry from the
correlator table. -/
theorem timeout_504_and_entry_removed (st : ServerState) (req : HttpRequest)
    (ridDraw fid ws : Nat)
    (h : alookup (subdomainOf req.host) st.tunnels = some ws) :
    requestTimeoutSeconds = 30 ∧
    (httpHandler st req ridDraw fid WaitOutcome.timeout).1
      = ⟨504, "Gateway Timeout", []⟩ ∧
    lookupPending (httpHandler st req ridDraw fid WaitOutcome.timeout).2.1.pending
      (subdomainOf req.host) (generateRequestId ridDraw) = none := by
  refine ⟨rfl, ?_, ?_⟩ <;> simp [httpHandler, h, lookupPending_cleanup]

/-- C5 witness (Scenario C): the relay never replies to the forwarded
`GET /foo`; the caller gets 504 and the entry for request id 1234 is gone. -/
theorem timeout_504_and_entry_removed_witness :
    requestTimeoutSeconds = 30 ∧
    (httpHandler scenarioEMid reqFoo 1234 1 WaitOutcome.timeout).1
      = ⟨504, "Gateway Timeout", []⟩ ∧
    lookupPending (httpHandler scenarioEMid reqFoo 1234 1 WaitOutcome.timeout).2.1.pending
      (subdomainOf reqFoo.host) (generateRequestId 1234) = none :=
  timeout_504_and_entry_removed scenarioEMid reqFoo 1234 1 0 (by decide)

/-- C7: a public request whose subdomain label matches no registered tunnel
is answered 404 on the spot: the server state (in particular the correlator
table) is returned unchanged and no frame is forwarded. -/
theorem unknown_subdomain_404_stateless (st : ServerState) (req : HttpRequest)
    (ridDraw fid : Nat) (out : WaitOutcome)
    (h : alookup (subdomainOf req.host) st.tunnels = none) :
    (httpHandler st req ridDraw fid out).1.status = 404 ∧
    (httpHandler st req ridDraw fid out).2.1 = st ∧
    (httpHandler st req ridDraw fid out).2.2 = none := by
  refine ⟨?_, ?_, ?_⟩ <;> simp [httpHandler, h]

/-- C7 witness (Scenario B): `zzzz0000.example.com` has no session; 404,
no state change, nothing forwarded. -/
theorem unknown_subdomain_404_stateless_witness :
    (httpHandler scenarioEStart reqZzzz 5 1 WaitOutcome.timeout).1.status = 404 ∧
    (httpHandler scenarioEStart reqZzzz 5 1 WaitOutcome.timeout).2.1 = scenarioEStart ∧
    (httpHandler scenarioEStart reqZzzz 5 1 WaitOutcome.timeout).2.2 = none :=
  unknown_subdomain_404_stateless scenarioEStart reqZzzz 5 1
    WaitOutcome.timeout (by decide)

/-- C9: the teardown/unregister step is idempotent — running it twice equals
running it once — and on a subdomain absent from all three dicts it is a
no-op returning the state unchanged (the code uses `pop(…, None)` and a
guarded `del`, so no error path exists). -/
theorem unregister_idempotent (st : ServerState) (sd : String) :
    websocketTeardown (websocketTeardown st sd) sd = websocketTeardown st sd ∧
    (alookup sd st.tunnels = none → alookup sd st.subdomains = none →
      alookup sd st.pending = none → websocketTeardown st sd = st) := by
  constructor
  · simp [websocketTeardown, aremove_idem]
  · intro h1 h2 h3
    simp [websocketTeardown, aremove_of_alookup_none h1,
      aremove_of_alookup_none h2, aremove_of_alookup_none h3]

/-- C9 witness: unregistering the absent subdomain `zzzz0000` twice is a
no-op both times. -/
theorem unregister_idempotent_witness :
    websocketTeardown (websocketTeardown scenarioEMid "zzzz0000") "zzzz0000"
      = websocketTeardown scenarioEMid "zzzz0000" ∧
    websocketTeardown scenarioEMid "zzzz0000" = scenarioEMid :=
  ⟨(unregister_idempotent scenarioEMid "zzzz0000").1,
   (unregister_idempotent scenarioEMid "zzzz0000").2
     (by decide) (by decide) (by decide)⟩

/-- C10: translating a Response frame silently defaults missing fields:
absent `status` becomes 200, absent `body` the empty string, absent
`headers` the empty header set. -/
theorem response_missing_fields_defaulted (d : RespFrame) :
    (d.status = none → (translateResponse d).status = 200) ∧
    (d.body = none → (translateResponse d).body = "") ∧
    (d.headers = none → (translateResponse d).headers = []) := by
  refine ⟨?_, ?_, ?_⟩ <;> intro h <;> simp [translateResponse, h]

/-- C10 witness: the frame with every field missing translates to a
200 / empty-body / no-headers response. -/
theorem response_missing_fields_defaulted_witness :
    (translateResponse ⟨none, none, none, none⟩).status = 200 ∧
    (translateResponse ⟨none, none, none, none⟩).body = "" ∧
    (translateResponse ⟨none, none, none, none⟩).headers = [] :=
  ⟨(response_missing_fields_defaulted ⟨none, none, none, none⟩).1 rfl,
   (response_missing_fields_defaulted ⟨none, none, none, none⟩).2.1 rfl,
   (response_missing_fields_defaulted ⟨none, none, none, none⟩).2.2 rfl⟩

/-- C2 counterexample: when the control channel of `abcd1234` closes with
request 1234 still pending, the teardown block deletes the correlator entries
but resolves nothing — the waiting caller's future is still `pending` after
teardown completes, not failed, so the caller does not receive a terminal
failure response within one scheduling tick. -/
theorem teardown_does_not_fail_pending_futures :
    alookup 1 (websocketTeardown closingSessionState "abcd1234").futures
      = some FutState.pending ∧
    ¬ alookup 1 (websocketTeardown closingSessionState "abcd1234").futures
      = some FutState.failed := by
  decide

/-- C2 amended: teardown removes every correlator entry of the closing
session from the table (so none is left behind), but leaves the state of
every future untouched — in-flight callers are not failed at teardown and
are released only by their own 30-second `wait_for` deadline (with 504, per
`timeout_504_and_entry_removed`). -/
theorem teardown_removes_entries_resolves_nothing (st : ServerState)
    (sd : String) :
    alookup sd (websocketTeardown st sd).pending = none ∧
    (websocketTeardown st sd).futures = st.futures :=
  ⟨alookup_aremove_self sd st.pending, rfl⟩

/-- C3 (code bug): `request_id = str(random.randint(1000, 9999))` draws from
a 9000-value space with no uniqueness check against the session's pending
set.  When the draw repeats while the first request is still pending, the
second `pending_responses[subdomain][request_id] = response_future`
assignment overwrites the first entry: the table keeps a single entry (now
pointing at future 2) and future 1 is left pending with no entry referring
to it, so the relay's answer to the first request can never reach its
caller. -/
theorem request_id_collision_overwrites :
    generateRequestId 1234 = "1234" ∧
    alookup "abcd1234" collisionFirst.pending = some [("1234", 1)] ∧
    alookup "abcd1234" collisionSecond.pending = some [("1234", 2)] ∧
    alookup 1 collisionSecond.futures = some FutState.pending := by
  decide

/-- C4 counterexample: an `http-response` frame naming a request id with no
pending entry does create correlator state — evaluating
`pending_responses[subdomain]` on the `defaultdict` materialises an empty
per-session dict that was not there before. -/
theorem unknown_response_creates_state :
    scenarioEMid.pending = [] ∧
    (handleHttpResponse scenarioEMid "abcd1234"
        ⟨some "7777", some 200, none, none⟩).1.pending
      = [("abcd1234", [])] := by
  decide

/-- C4 amended: processing an inbound `http-response` frame resolves the
matching entry only if its future is still pending; a duplicate, late or
unknown completion is logged and never overwrites a previously resolved
result, and never adds or removes any pending entry — though the
`defaultdict` lookup may materialise an empty per-session sub-table. -/
theorem response_completion_no_overwrite (st : ServerState) (sd : String)
    (d : RespFrame) (fid : Nat) (r : RespFrame)
    (h : alookup fid st.futures = some (FutState.resolved r)) :
    alookup fid (handleHttpResponse st sd d).1.futures
      = some (FutState.resolved r) ∧
    ∀ sd' rid', lookupPending (handleHttpResponse st sd d).1.pending sd' rid'
      = lookupPending st.pending sd' rid' := by
  have hp : ∀ sd' rid',
      lookupPending (defaultGet st.pending sd).2 sd' rid'
        = lookupPending st.pending sd' rid' :=
    fun sd' rid' => lookupPending_defaultGet st.pending sd sd' rid'
  unfold handleHttpResponse
  by_cases ht : truthy d.request_id = true
  · cases hr : d.request_id with
    | none => simp [ht, hr, h]
    | some rid =>
        have ht2 : truthy (some rid) = true := by rw [hr] at ht; exact ht
        cases hm : alookup rid (defaultGet st.pending sd).1 with
        | none => simp [ht2, hr, hm, h, hp]
        | some fid0 =>
            cases hf : alookup fid0 st.futures with
            | none => simp [ht2, hr, hm, hf, h, hp]
            | some fs =>
                cases fs with
                | pending =>
                    have hne : fid ≠ fid0 := by
                      intro he
                      rw [he, hf] at h
                      exact FutState.noConfusion (Option.some.inj h)
                    simp [ht2, hr, hm, hf, hp, alookup_ainsert_ne _ hne, h]
                | resolved r' => simp [ht2, hr, hm, hf, h, hp]
                | failed => simp [ht2, hr, hm, hf, h, hp]
  · simp [ht, h]

/-- C4 witness: session `abcd1234` already holds the result of request 1234
(future 1 resolved with `okFrame`, entry not yet cleaned up); a late
duplicate completion with `lateFrame` leaves the stored result and the
pending table as they were. -/
theorem response_completion_no_overwrite_witness :
    alookup 1 (handleHttpResponse resolvedStore "abcd1234" lateFrame).1.futures
      = some (FutState.resolved okFrame) ∧
    lookupPending (handleHttpResponse resolvedStore "abcd1234" lateFrame).1.pending
        "abcd1234" "1234"
      = lookupPending resolvedStore.pending "abcd1234" "1234" :=
  ⟨(response_completion_no_overwrite resolvedStore "abcd1234" lateFrame 1
      okFrame (by decide)).1,
   (response_completion_no_overwrite resolvedStore "abcd1234" lateFrame 1
      okFrame (by decide)).2 "abcd1234" "1234"⟩

/-- C6: for a registered session, `http_handler` forwards a Request frame
carrying the caller's method and path verbatim, and when the relay's
Response frame (built in `client.py` from the local status/headers/body)
resolves the wait, the public response carries that status, body and headers
verbatim. -/
theorem forward_and_translate_verbatim (st : ServerState) (req : HttpRequest)
    (ridDraw fid ws s : Nat) (hs : List (String × String)) (b : String)
    (h : alookup (subdomainOf req.host) st.tunnels = some ws) :
    (httpHandler st req ridDraw fid
        (WaitOutcome.reply (relayResponseFrame
          ⟨"http-request", generateRequestId ridDraw, req.method, req.path,
           req.headers, req.body⟩ s hs b))).2.2
      = some ⟨"http-request", generateRequestId ridDraw, req.method, req.path,
              req.headers, req.body⟩ ∧
    (httpHandler st req ridDraw fid
        (WaitOutcome.reply (relayResponseFrame
          ⟨"http-request", generateRequestId ridDraw, req.method, req.path,
           req.headers, req.body⟩ s hs b))).1
      = ⟨s, b, hs⟩ := by
  constructor <;>
    simp [httpHandler, h, relayResponseFrame, translateResponse]

/-- C6 witness (Scenario A): `GET /foo` for `abcd1234.example.com` is
forwarded with method `GET` and path `/foo`, and the relay's
`{status: 200, body: "ok"}` comes back to the caller unchanged. -/
theorem forward_and_translate_verbatim_witness :
    (httpHandler scenarioEMid reqFoo 1234 1
        (WaitOutcome.reply (relayResponseFrame
          ⟨"http-request", generateRequestId 1234, reqFoo.method, reqFoo.path,
           reqFoo.headers, reqFoo.body⟩ 200 [] "ok"))).2.2
      = some ⟨"http-request", generateRequestId 1234, reqFoo.method,
              reqFoo.path, reqFoo.headers, reqFoo.body⟩ ∧
    (httpHandler scenarioEMid reqFoo 1234 1
        (WaitOutcome.reply (relayResponseFrame
          ⟨"http-request", generateRequestId 1234, reqFoo.method, reqFoo.path,
           reqFoo.headers, reqFoo.body⟩ 200 [] "ok"))).1
      = ⟨200, "ok", []⟩ :=
  forward_and_translate_verbatim scenarioEMid reqFoo 1234 1 0 200 [] "ok"
    (by decide)

/-- C8 counterexample: the health response is bit-for-bit identical for a
registry with zero active sessions and one with one active session, and its
body is the fixed string "OK" — so it cannot report the active-session
count. -/
theorem health_response_ignores_session_count :
    healthHandler scenarioEStart reqHealth = healthHandler scenarioEMid reqHealth ∧
    scenarioEStart.tunnels.length = 0 ∧
    scenarioEMid.tunnels.length = 1 ∧
    healthHandler scenarioEStart reqHealth = ⟨200, "OK", []⟩ := by
  decide

/-- C8 amended: `GET /health` routes to the dedicated health handler (its
exact route is registered ahead of the catch-all tunnel routes), which
reports liveness with a fixed `200 "OK"` response independent of the tunnel
registry; the active-session count is not included. -/
theorem health_route_and_liveness (st : ServerState) (req : HttpRequest) :
    routeFor "GET" "/health" = RouteTarget.health ∧
    healthHandler st req = ⟨200, "OK", []⟩ :=
  ⟨rfl, rfl⟩

end PyTunnel
